import Mathlib

/-!
Shallow embedding of the arangod cache instance controller
(src/arangod/Cache/Cache.cpp): the per-cache state machine, the
resize/migrate request paths, shutdown, the Finding (lookup handle)
lease protocol and the value reclamation helper.

Modelling conventions: time is a Nat; the coordinator (Manager) is an
oracle whose response pair (accepted, nextAllowedTime) is passed in as
a parameter; bounded lock acquisition is a Boolean parameter (true =
the bounded try succeeded).  Each operation that may call the
coordinator returns, besides its result and the new cache state, the
argument of the coordinator call it made (none when no call was made),
so that theorems can speak about which calls are issued.  The busy-wait
loops of the C++ code (resize waiting on the resizing flag, shutdown
draining open operations) are modelled over a frozen environment: a
loop that would spin forever on unchanging state yields none.
-/

namespace ArangoCache

/-- State flags packed into the cache state word (Cache/State.h):
shutdown, shuttingDown, migrating, resizing. -/
structure CState where
  shutdown : Bool
  shuttingDown : Bool
  migrating : Bool
  resizing : Bool
deriving DecidableEq

/-- Coordinator-owned metadata visible to the cache (Cache/Metadata.h):
soft and hard memory limits, current usage, table log-size, and the
per-instance resizing/migrating flags, read under the metadata lock. -/
structure Metadata where
  softLimit : Nat
  hardLimit : Nat
  usage : Nat
  logSize : Nat
  resizing : Bool
  migrating : Bool
deriving DecidableEq

/-- Fields of class Cache: the state word, the growth permission, the
eviction stat sample buffer, the insertion counter, the open-operation
counter, the two rate-limit timestamps and the metadata handle. -/
structure Cache where
  state : CState
  allowGrowth : Bool
  evictionStats : List Nat
  insertionCount : Nat
  openOperations : Nat
  migrateRequestTime : Nat
  resizeRequestTime : Nat
  metadata : Metadata
deriving DecidableEq

/-- Cache::isOperational: neither shutdown nor shuttingDown is set
(checked while the state lock is held). -/
def isOperational (c : Cache) : Bool :=
  !c.state.shutdown && !c.state.shuttingDown

/-- Cache::limit: lock the state; if operational read the soft limit
from the metadata, otherwise return 0. -/
def limit (c : Cache) : Nat :=
  if isOperational c then c.metadata.softLimit else 0

/-- Cache::usage: lock the state; if operational read the usage from
the metadata, otherwise return 0. -/
def usage (c : Cache) : Nat :=
  if isOperational c then c.metadata.usage else 0

/-- Outcome of a request path: the boolean result returned to the
caller, the new cache state, and the argument of the coordinator call
that was issued (none when the coordinator was not called). -/
structure ReqOutcome where
  accepted : Bool
  cache : Cache
  call : Option Nat
deriving DecidableEq

/-- Cache::requestResize: acquire the state lock (10 bounded tries when
internal, unbounded otherwise, so lockOk only matters when internal).
If the call is external, or internal with growth allowed and the resize
cooldown elapsed, compute the new hard limit (the requested one if
nonzero, else twice the current hard limit read under the metadata
lock), call the coordinator, and store the returned timestamp as the
new resize cooldown regardless of acceptance. -/
def requestResize (c : Cache) (requestedLimit : Nat) (internal : Bool)
    (lockOk : Bool) (resp : Bool × Nat) (now : Nat) : ReqOutcome :=
  if (if internal then lockOk else true) then
    if !internal || (c.allowGrowth && decide (now > c.resizeRequestTime)) then
      { accepted := resp.1,
        cache := { c with resizeRequestTime := resp.2 },
        call := some (if requestedLimit > 0 then requestedLimit
                      else c.metadata.hardLimit * 2) }
    else { accepted := false, cache := c, call := none }
  else { accepted := false, cache := c, call := none }

/-- Cache::resize: under the state lock record whether the cache is
operational and increment the open-operation counter; if operational,
busy-wait until the metadata no longer has the resizing flag set (over
a frozen environment a set flag means the loop never exits, hence
none), then delegate to requestResize with internal = false; finally
decrement the open-operation counter. -/
def resize (c : Cache) (requestedLimit : Nat) (resp : Bool × Nat)
    (now : Nat) : Option ReqOutcome :=
  if isOperational c then
    if c.metadata.resizing then none
    else
      let r := requestResize { c with openOperations := c.openOperations + 1 }
          requestedLimit false true resp now
      some { r with cache :=
        { r.cache with openOperations := r.cache.openOperations - 1 } }
  else
    some { accepted := false,
           cache := { c with openOperations := c.openOperations + 1 - 1 },
           call := none }

/-- Modelled from the spec: the outcome tag recorded for a cache hit;
the concrete uint8 codes of the Stat enum (Cache/Cache.h is not among
the sources) are irrelevant, only distinctness is used. -/
def hitStat : Nat := 0

/-- Modelled from the spec: the outcome tag recorded for a cache miss. -/
def missStat : Nat := 1

/-- Modelled from the spec: the outcome tag recorded for an eviction. -/
def evictionStat : Nat := 2

/-- Insert a (tag, count) pair into a list sorted by descending count,
ties broken by tag identity. -/
def insertByCount (p : Nat × Nat) : List (Nat × Nat) → List (Nat × Nat)
  | [] => [p]
  | q :: qs =>
    if q.2 < p.2 ∨ (q.2 = p.2 ∧ p.1 ≤ q.1) then p :: q :: qs
    else q :: insertByCount p qs

/-- The distinct tags of the sample buffer, first occurrence first. -/
def distinctTags (buf : List Nat) : List Nat :=
  buf.foldl (fun acc t => if t ∈ acc then acc else acc ++ [t]) []

/-- Modelled from the spec: StatBuffer::getFrequencies (the
FrequencyBuffer implementation is not among the sources): the distinct
tags present in the sample buffer with their counts, ordered descending
by count, ties broken by tag identity. -/
def getFrequencies (buf : List Nat) : List (Nat × Nat) :=
  (distinctTags buf).foldl (fun acc t => insertByCount (t, buf.count t) acc) []

/-- The pressure test of Cache::requestMigrate on the frequency
breakdown: a single tag that is the eviction tag, or exactly two tags
with stats[0].second * 16 > stats[1].second. -/
def migratePressure : List (Nat × Nat) → Bool
  | [p] => p.1 == evictionStat
  | [p, q] => decide (p.2 * 16 > q.2)
  | _ => false

/-- Outcome of Cache::requestMigrate: the new cache state and the
log-size argument of the coordinator migrate call (none when the
coordinator was not called). -/
structure MigrateOutcome where
  cache : Cache
  call : Option Nat
deriving DecidableEq

/-- Cache::requestMigrate: increment the uint64 insertion counter and
proceed only when its low 12 bits are zero; read the frequency
breakdown; if the pressure test passes, acquire the state lock with 10
bounded tries; if acquired, and the migrating flag is not set, and now
is past the migrate cooldown, compute the new log-size (the requested
one if nonzero, else the metadata log-size plus one), call the
coordinator, store the returned timestamp into the resize request time
field (as the C++ code does), and clear the stat buffer on
acceptance. -/
def requestMigrate (c : Cache) (requestedLogSize : Nat) (lockOk : Bool)
    (resp : Bool × Nat) (now : Nat) : MigrateOutcome :=
  let count := (c.insertionCount + 1) % 2 ^ 64
  let c1 := { c with insertionCount := count }
  if count % 4096 = 0 then
    if migratePressure (getFrequencies c1.evictionStats) then
      if lockOk then
        if !c1.state.migrating && decide (now > c1.migrateRequestTime) then
          { cache :=
              { c1 with
                resizeRequestTime := resp.2,
                evictionStats :=
                  if resp.1 then [] else c1.evictionStats },
            call := some (if requestedLogSize > 0 then requestedLogSize
                          else c1.metadata.logSize + 1) }
        else { cache := c1, call := none }
      else { cache := c1, call := none }
    else { cache := c1, call := none }
  else { cache := c1, call := none }

/-- Cache::beginShutdown: under the state lock, set shuttingDown if
neither shutdown nor shuttingDown is set. -/
def beginShutdown (c : Cache) : Cache :=
  if !c.state.shutdown && !c.state.shuttingDown then
    { c with state := { c.state with shuttingDown := true } }
  else c

/-- Cache::shutdown: under the state lock, if shutdown is not yet set,
ensure shuttingDown, drain until the open-operation counter is zero
(over a frozen environment a nonzero counter means the drain never
completes, hence none), then clear all flags, set shutdown, clear the
tables and unregister from the coordinator (table and coordinator
effects are outside this model). -/
def shutdown (c : Cache) : Option Cache :=
  if c.state.shutdown then some c
  else if c.openOperations ≠ 0 then none
  else some { c with state :=
    { shutdown := true, shuttingDown := false,
      migrating := false, resizing := false } }

/-- Cache::Cache: registration with the coordinator may fail with
bad_alloc (registration = none); the constructor catches it and sets
the shutdown flag, so no exception escapes; on success the metadata
handle is stored.  Both rate-limit timestamps start at the current
time, the stat buffer empty, both counters zero. -/
def mkCache (registration : Option Metadata) (allowGrowth : Bool)
    (now : Nat) : Cache :=
  { state := { shutdown := registration.isNone, shuttingDown := false,
               migrating := false, resizing := false },
    allowGrowth := allowGrowth,
    evictionStats := [],
    insertionCount := 0,
    openOperations := 0,
    migrateRequestTime := now,
    resizeRequestTime := now,
    metadata := registration.getD ⟨0, 0, 0, 0, false, false⟩ }

/-- Cache::hashKey: clamp the 32-bit fasthash32 output (the hash
implementation lives outside these sources, so the raw hash value is
taken as an argument) to be at least 1. -/
def hashKey (fh : Nat) : Nat := max 1 (fh % 2 ^ 32)

/-- Reference counts of the CachedValue objects, indexed by address. -/
abbrev Heap := Nat → Nat

/-- CachedValue::lease: atomically increment the reference count of the
value at address a. -/
def leaseAt (h : Heap) (a : Nat) : Heap :=
  fun x => if x = a then h x + 1 else h x

/-- CachedValue::release: atomically decrement the reference count of
the value at address a. -/
def releaseAt (h : Heap) (a : Nat) : Heap :=
  fun x => if x = a then h x - 1 else h x

/-- Cache::Finding: an optional pointer to a CachedValue. -/
structure Finding where
  value : Option Nat
deriving DecidableEq

/-- Finding::Finding(CachedValue*): store the pointer and lease it when
it is not null. -/
def Finding.ctor (h : Heap) (v : Option Nat) : Finding × Heap :=
  match v with
  | none => (⟨none⟩, h)
  | some a => (⟨some a⟩, leaseAt h a)

/-- Finding::Finding(Finding const&): copy the pointer and lease it
when it is not null. -/
def Finding.copyCtor (h : Heap) (other : Finding) : Finding × Heap :=
  match other.value with
  | none => (⟨none⟩, h)
  | some a => (⟨some a⟩, leaseAt h a)

/-- Finding::Finding(Finding&&): take the pointer from the source and
null the source; the count is untouched.  Returns (destination, source
after the move, heap). -/
def Finding.moveCtor (h : Heap) (other : Finding) :
    Finding × Finding × Heap :=
  (⟨other.value⟩, ⟨none⟩, h)

/-- Finding destructor: release the held pointer when not null. -/
def Finding.dtor (h : Heap) (f : Finding) : Heap :=
  match f.value with
  | none => h
  | some a => releaseAt h a

/-- Finding copy assignment: return unchanged on self-assignment
(isSelf models the address identity test of the C++ operator);
otherwise release the held value, take the pointer of the source and
lease it.  Returns (assigned target, heap). -/
def Finding.copyAssign (h : Heap) (self other : Finding)
    (isSelf : Bool) : Finding × Heap :=
  if isSelf then (self, h)
  else
    match other.value with
    | none => (⟨none⟩, Finding.dtor h self)
    | some a => (⟨some a⟩, leaseAt (Finding.dtor h self) a)

/-- Finding move assignment: return unchanged on self-assignment;
otherwise release the held value, take the pointer of the source and
null the source; no lease is taken.  Returns (assigned target, source
after the move, heap). -/
def Finding.moveAssign (h : Heap) (self other : Finding)
    (isSelf : Bool) : Finding × Finding × Heap :=
  if isSelf then (self, other, h)
  else (⟨other.value⟩, ⟨none⟩, Finding.dtor h self)

/-- A reference-count event observed by the reclamation loop: some
thread that still holds a lease releases it, or (in general) a lease is
taken. -/
inductive RefEvent
  | lease
  | release
deriving DecidableEq

/-- Effect of one reference-count event on the count. -/
def applyEvent (c : Nat) : RefEvent → Nat
  | .lease => c + 1
  | .release => c - 1

/-- The reference count after a sequence of events starting from c. -/
def refCountAfter (c : Nat) (es : List RefEvent) : Nat :=
  es.foldl applyEvent c

/-- Cache::freeValue: spin while the reference count of the (already
unlinked) value is positive, then delete it.  The model consumes the
stream of reference-count events the spinning thread observes and
returns the number of events that passed before the delete, or none
when the count never reaches zero (the loop spins forever). -/
def freeValue : Nat → List RefEvent → Option Nat
  | 0, _ => some 0
  | _ + 1, [] => none
  | c + 1, e :: es => (freeValue (applyEvent (c + 1) e) es).map (· + 1)

/-- Claim C9: for every key (hence every raw 32-bit hash value fh the
external fasthash32 produces for it), Cache::hashKey returns at least
1 and never 0: the zero hash is clamped to 1. -/
theorem hashKey_positive (fh : Nat) : 1 ≤ hashKey fh ∧ hashKey fh ≠ 0 := by
  constructor
  · exact le_max_left 1 (fh % 2 ^ 32)
  · have : 1 ≤ hashKey fh := le_max_left 1 (fh % 2 ^ 32)
    omega

/-- Claim C10: copy-assigning or move-assigning a Finding to itself is
a no-op: the early self-test of both operators returns before any
release, so the referenced value pointer and every reference count in
the heap are unchanged, and in particular the lease the Finding holds
is never released. -/
theorem finding_self_assignment_noop (h : Heap) (f : Finding) :
    Finding.copyAssign h f f true = (f, h) ∧
      Finding.moveAssign h f f true = (f, f, h) := by
  constructor <;> rfl

/-- Claim C5: constructing a Finding from a non-null value at address a
takes exactly one lease (count at a rises by one, all other counts
unchanged); copying a found Finding takes one additional lease and both
handles refer to the value; moving a found Finding leaves the source
empty, transfers the pointer, and changes no count; destroying a found
Finding releases exactly one lease (count at a drops by one, all other
counts unchanged).  The hypothesis 0 < h a is the invariant that a live
found Finding holds a lease on its value. -/
theorem finding_lease_invariants (h : Heap) (a : Nat) (hpos : 0 < h a) :
    (Finding.ctor h (some a)).1.value = some a ∧
      (Finding.ctor h (some a)).2 a = h a + 1 ∧
      (∀ b, b ≠ a → (Finding.ctor h (some a)).2 b = h b) ∧
      (Finding.copyCtor h ⟨some a⟩).1.value = some a ∧
      (Finding.copyCtor h ⟨some a⟩).2 a = h a + 1 ∧
      (∀ b, b ≠ a → (Finding.copyCtor h ⟨some a⟩).2 b = h b) ∧
      (Finding.moveCtor h ⟨some a⟩).1.value = some a ∧
      (Finding.moveCtor h ⟨some a⟩).2.1.value = none ∧
      (Finding.moveCtor h ⟨some a⟩).2.2 = h ∧
      (Finding.dtor h ⟨some a⟩) a + 1 = h a ∧
      (∀ b, b ≠ a → (Finding.dtor h ⟨some a⟩) b = h b) := by
  refine ⟨rfl, ?_, ?_, rfl, ?_, ?_, rfl, rfl, rfl, ?_, ?_⟩
  · simp [Finding.ctor, leaseAt]
  · intro b hb; simp [Finding.ctor, leaseAt, hb]
  · simp [Finding.copyCtor, leaseAt]
  · intro b hb; simp [Finding.copyCtor, leaseAt, hb]
  · have hd : (Finding.dtor h ⟨some a⟩) a = h a - 1 := by
      simp [Finding.dtor, releaseAt]
    omega
  · intro b hb; simp [Finding.dtor, releaseAt, hb]

/-- Witness for claim C5 at the concrete heap (fun _ => 1) and
address 0. -/
theorem finding_lease_invariants_witness :
    (Finding.ctor (fun _ => 1) (some 0)).1.value = some 0 ∧
      (Finding.ctor (fun _ => 1) (some 0)).2 0 = 2 ∧
      (∀ b, b ≠ 0 → (Finding.ctor (fun _ => 1) (some 0)).2 b = 1) ∧
      (Finding.copyCtor (fun _ => 1) ⟨some 0⟩).1.value = some 0 ∧
      (Finding.copyCtor (fun _ => 1) ⟨some 0⟩).2 0 = 2 ∧
      (∀ b, b ≠ 0 → (Finding.copyCtor (fun _ => 1) ⟨some 0⟩).2 b = 1) ∧
      (Finding.moveCtor (fun _ => 1) ⟨some 0⟩).1.value = some 0 ∧
      (Finding.moveCtor (fun _ => 1) ⟨some 0⟩).2.1.value = none ∧
      (Finding.moveCtor (fun _ => 1) ⟨some 0⟩).2.2 = (fun _ => 1) ∧
      (Finding.dtor (fun _ => 1) ⟨some 0⟩) 0 + 1 = 1 ∧
      (∀ b, b ≠ 0 → (Finding.dtor (fun _ => 1) ⟨some 0⟩) b = 1) :=
  finding_lease_invariants (fun _ => 1) 0 (by decide)

/-- Claim C8: when coordinator registration fails during construction
(registration = none, the bad_alloc case), the cache is constructed
with the shutdown flag set and no exception propagates (mkCache is
total); every subsequent limit and usage call returns 0 and every
subsequent resize call returns false without a coordinator call. -/
theorem mkCache_registration_failure_born_dead (allowGrowth : Bool)
    (now : Nat) :
    (mkCache none allowGrowth now).state.shutdown = true ∧
      limit (mkCache none allowGrowth now) = 0 ∧
      usage (mkCache none allowGrowth now) = 0 ∧
      ∀ l resp now2,
        resize (mkCache none allowGrowth now) l resp now2 =
          some ⟨false, mkCache none allowGrowth now, none⟩ := by
  refine ⟨rfl, ?_, ?_, ?_⟩
  · simp [limit, isOperational, mkCache]
  · simp [usage, isOperational, mkCache]
  · intro l resp now2
    simp [resize, isOperational, mkCache]

/-- A concrete operational cache used to instantiate theorems. -/
def cOp : Cache :=
  { state := ⟨false, false, false, false⟩, allowGrowth := true,
    evictionStats := [], insertionCount := 0, openOperations := 0,
    migrateRequestTime := 5, resizeRequestTime := 5,
    metadata := ⟨100, 200, 50, 8, false, false⟩ }

/-- The concrete cache cOp after shutdown completed. -/
def cShut : Cache := { cOp with state := ⟨true, false, false, false⟩ }

/-- A concrete cache in terminal shutdown state, sitting at an
insertion-count boundary with an eviction-only sample, the migrate
cooldown elapsed and the migrating flag clear. -/
def cDead : Cache :=
  { state := ⟨true, false, false, false⟩, allowGrowth := true,
    evictionStats := [evictionStat], insertionCount := 4095,
    openOperations := 0, migrateRequestTime := 0, resizeRequestTime := 0,
    metadata := ⟨100, 200, 50, 8, false, false⟩ }

/-- Claim C4 counterexample: requestMigrate performs no isOperational
check, so on the concrete cache cDead, whose shutdown flag is set, the
4096th insertion still issues a coordinator migrate call (with log-size
8 + 1 = 9), refuting the claim that once shutdown is set no
state-mutating operation issues a new coordinator request. -/
theorem requestMigrate_after_shutdown_calls_coordinator :
    cDead.state.shutdown = true ∧
      (requestMigrate cDead 0 true (true, 100) 10).call = some 9 := by
  decide

/-- Claim C4 (amended): resize, like the queries limit and usage,
checks isOperational while holding the state lock before doing any
work, so once shuttingDown or shutdown is set resize returns false with
no coordinator call and the queries return 0; requestMigrate, however,
performs no isOperational check (it gates only on the migrating flag
and the migrate cooldown) and can still issue a coordinator call. -/
theorem resize_gated_by_isOperational (c : Cache) (l : Nat)
    (resp : Bool × Nat) (now : Nat) (h : isOperational c = false) :
    resize c l resp now = some ⟨false, c, none⟩ ∧
      limit c = 0 ∧ usage c = 0 := by
  refine ⟨?_, by simp [limit, h], by simp [usage, h]⟩
  simp [resize, h]

/-- Witness for the amended claim C4 at the concrete shutdown cache. -/
theorem resize_gated_by_isOperational_witness :
    resize cDead 0 (true, 100) 10 = some ⟨false, cDead, none⟩ ∧
      limit cDead = 0 ∧ usage cDead = 0 :=
  resize_gated_by_isOperational cDead 0 (true, 100) 10 (by decide)

/-- Claim C6: whenever shutdown() returns (the drain completed, here
shutdown c = some c2), every subsequent limit call returns 0, every
subsequent usage call returns 0, and every subsequent resize call
returns false without a coordinator resize call. -/
theorem shutdown_disables_operations (c c2 : Cache)
    (h : shutdown c = some c2) :
    limit c2 = 0 ∧ usage c2 = 0 ∧
      ∀ l resp now, resize c2 l resp now = some ⟨false, c2, none⟩ := by
  have hs : c2.state.shutdown = true := by
    unfold shutdown at h
    split at h
    · next hc => injection h with h2; subst h2; exact hc
    · split at h
      · cases h
      · injection h with h2; subst h2; rfl
  have hop : isOperational c2 = false := by simp [isOperational, hs]
  refine ⟨by simp [limit, hop], by simp [usage, hop], ?_⟩
  intro l resp now
  simp [resize, hop]

/-- Witness for claim C6 at the concrete caches cOp and cShut. -/
theorem shutdown_disables_operations_witness :
    limit cShut = 0 ∧ usage cShut = 0 ∧
      ∀ l resp now, resize cShut l resp now = some ⟨false, cShut, none⟩ :=
  shutdown_disables_operations cOp cShut (by decide)

/-- Claim C7: whenever requestResize reaches the point of computing a
new hard limit (that is, it issues a coordinator call, here call = some
nl), the limit passed to the coordinator is the caller-supplied
requestedLimit when it is nonzero and twice the current hard limit read
from the metadata when it is zero, and the timestamp the coordinator
returns is stored as the new resize cooldown regardless of whether the
request was accepted (resp.1 is arbitrary). -/
theorem requestResize_limit_and_cooldown (c : Cache)
    (requestedLimit : Nat) (internal lockOk : Bool) (resp : Bool × Nat)
    (now : Nat) (nl : Nat)
    (h : (requestResize c requestedLimit internal lockOk resp now).call =
      some nl) :
    nl = (if requestedLimit > 0 then requestedLimit
          else c.metadata.hardLimit * 2) ∧
      (requestResize c requestedLimit internal lockOk resp
        now).cache.resizeRequestTime = resp.2 := by
  unfold requestResize at h ⊢
  by_cases hok : (if internal then lockOk else true) = true
  · rw [if_pos hok] at h ⊢
    by_cases hguard :
        (!internal || (c.allowGrowth && decide (now > c.resizeRequestTime))) =
          true
    · rw [if_pos hguard] at h ⊢
      exact ⟨(Option.some.inj h).symm, rfl⟩
    · rw [if_neg hguard] at h
      simp at h
  · rw [if_neg hok] at h
    simp at h

/-- Witness for claim C7: an external request with requestedLimit 0 on
the concrete cache cOp passes 2 times the hard limit 200 to the
coordinator and stores the returned time 77 even though the request was
rejected. -/
theorem requestResize_limit_and_cooldown_witness :
    400 = (if 0 > 0 then 0 else cOp.metadata.hardLimit * 2) ∧
      (requestResize cOp 0 false true (false, 77) 9).cache.resizeRequestTime =
        77 :=
  requestResize_limit_and_cooldown cOp 0 false true (false, 77) 9 400
    (by decide)

/-- Claim C1: for every initial reference count and every stream of
lease/release events on an already-unlinked value, if Cache::freeValue
deletes the value (after observing n events), then at the moment of
deletion the reference count is zero, so the value is never freed while
an unreleased lease exists; the count was nonzero at every earlier
moment, so the free happens only after the last release; and the
deletion point is unique, so the value is freed exactly once. -/
theorem freeValue_waits_for_zero_refcount (c : Nat) (es : List RefEvent)
    (n : Nat) (h : freeValue c es = some n) :
    refCountAfter c (es.take n) = 0 ∧
      (∀ m, m < n → refCountAfter c (es.take m) ≠ 0) ∧
      (∀ n2, freeValue c es = some n2 → n2 = n) := by
  induction es generalizing c n with
  | nil =>
    cases c with
    | zero =>
      have hn : n = 0 := by
        have hx := h
        simp only [freeValue, Option.some.injEq] at hx
        omega
      subst hn
      refine ⟨rfl, fun m hm => absurd hm (by omega), fun n2 h2 => ?_⟩
      have hx := h2
      simp only [freeValue, Option.some.injEq] at hx
      omega
    | succ k => simp [freeValue] at h
  | cons e es ih =>
    cases c with
    | zero =>
      have hn : n = 0 := by
        have hx := h
        simp only [freeValue, Option.some.injEq] at hx
        omega
      subst hn
      refine ⟨rfl, fun m hm => absurd hm (by omega), fun n2 h2 => ?_⟩
      have hx := h2
      simp only [freeValue, Option.some.injEq] at hx
      omega
    | succ k =>
      have h2 : (freeValue (applyEvent (k + 1) e) es).map (· + 1) = some n := h
      obtain ⟨n1, hn1, hn⟩ :
          ∃ n1, freeValue (applyEvent (k + 1) e) es = some n1 ∧ n1 + 1 = n := by
        cases hfv : freeValue (applyEvent (k + 1) e) es with
        | none => rw [hfv] at h2; simp at h2
        | some m =>
          rw [hfv] at h2
          simp at h2
          exact ⟨m, rfl, h2⟩
      subst hn
      obtain ⟨ih1, ih2, _⟩ := ih (applyEvent (k + 1) e) n1 hn1
      refine ⟨ih1, ?_, ?_⟩
      · intro m hm
        cases m with
        | zero => exact Nat.succ_ne_zero k
        | succ m1 => exact ih2 m1 (Nat.lt_of_succ_lt_succ hm)
      · intro n2 hh
        rw [h] at hh
        exact (Option.some.inj hh).symm

/-- Witness for claim C1: starting from two outstanding leases and a
stream of two releases, the delete happens after both releases. -/
theorem freeValue_waits_for_zero_refcount_witness :
    refCountAfter 2 (([RefEvent.release, RefEvent.release]).take 2) = 0 ∧
      (∀ m, m < 2 →
        refCountAfter 2 (([RefEvent.release, RefEvent.release]).take m) ≠ 0) ∧
      (∀ n2, freeValue 2 [RefEvent.release, RefEvent.release] = some n2 →
        n2 = 2) :=
  freeValue_waits_for_zero_refcount 2 [RefEvent.release, RefEvent.release] 2
    (by decide)

/-- A concrete operational cache at an insertion boundary whose sample
holds two misses and one eviction: the frequency breakdown is
[(miss, 2), (eviction, 1)], so the top count 2 is below 16 times the
second count 16. -/
def cMix : Cache :=
  { state := ⟨false, false, false, false⟩, allowGrowth := true,
    evictionStats := [missStat, missStat, evictionStat],
    insertionCount := 4095, openOperations := 0,
    migrateRequestTime := 0, resizeRequestTime := 0,
    metadata := ⟨100, 200, 50, 8, false, false⟩ }

/-- Claim C2 exhibit: on the concrete cache cMix the breakdown has
exactly two tags with top count 2 strictly below 16 times the second
count 1, yet the 4096th insertion issues a coordinator migrate call
(with log-size 8 + 1 = 9), because the code tests
stats[0].second * 16 > stats[1].second (32 > 1) instead of the
intended stats[0].second > 16 * stats[1].second. -/
theorem requestMigrate_calls_below_sixteen_ratio :
    getFrequencies cMix.evictionStats = [(missStat, 2), (evictionStat, 1)] ∧
      2 < 16 * 1 ∧
      (requestMigrate cMix 0 true (true, 100) 10).call = some 9 := by
  decide

/-- A concrete operational cache at an insertion boundary with an
eviction-only sample and both cooldown timestamps at time 5. -/
def cMig : Cache :=
  { state := ⟨false, false, false, false⟩, allowGrowth := true,
    evictionStats := [evictionStat], insertionCount := 4095,
    openOperations := 0, migrateRequestTime := 5, resizeRequestTime := 5,
    metadata := ⟨100, 200, 50, 8, false, false⟩ }

/-- The cache cMig after its accepted migrate request at time 10 (the
coordinator returned next-allowed time 1000), then brought to the next
insertion boundary with one further eviction recorded in the (cleared)
sample buffer. -/
def cMigNext : Cache :=
  { (requestMigrate cMig 0 true (true, 1000) 10).cache with
    insertionCount := 4095, evictionStats := [evictionStat] }

/-- Claim C3 exhibit: after an accepted migrate request whose
coordinator response carries next-allowed time 1000, the migrate
cooldown field still holds its old value 5 while the resize cooldown
field received 1000 (the code assigns the returned pair to
the resize request time); consequently a subsequent internal migrate
request at time 20, before the returned timestamp 1000 has elapsed, is
not skipped: it issues another coordinator migrate call. -/
theorem requestMigrate_stores_resize_cooldown :
    (requestMigrate cMig 0 true (true, 1000) 10).call = some 9 ∧
      (requestMigrate cMig 0 true (true, 1000) 10).cache.migrateRequestTime =
        5 ∧
      (requestMigrate cMig 0 true (true, 1000) 10).cache.resizeRequestTime =
        1000 ∧
      20 < 1000 ∧
      (requestMigrate cMigNext 0 true (true, 2000) 20).call = some 9 := by
  decide

end ArangoCache
